import Mathlib

/-!
# Verification of pcdsdevices `gon.py` (Kappa) and `signal.py`

Shallow embedding of the two source files of this repository:

* `src/pcdsdevices/gon.py` — the `Kappa` goniometer controller: coordinate
  transforms `k_to_e` / `e_to_k`, the spherical move commands `mv_e_eta` /
  `mv_e_chi` / `mv_e_phi`, and the step-size interlock `check_motor_step`.
* `src/pcdsdevices/signal.py` — `AggregateSignal` (cache + change
  suppression), `AvgSignal` (rolling average), and
  `UnitConversionDerivedSignal` (offset + unit conversion).

Python exceptions are modelled with `Except PyError`; attribute lookups on
the `Kappa` class resolve against an explicit list of the names the class
actually defines, so that the source's misspelled references (`self.kap`,
`self.kappa_postion`, `self.checkMotorStep`, `self.E2K`) raise
`AttributeError` exactly as the interpreter would.  Floating point
arithmetic is modelled over `ℝ` (transforms, positions) and `ℚ`
(rolling-average buffer, where exact evaluation of witnesses matters);
NumPy's silent NaN/inf results are total functions over `ℝ`
(`Real.arcsin` clamps, division by zero is zero) — the embedding preserves
the one fact the claims depend on: none of these operations raises.
-/

open Real

/-- Python exception kinds that the embedded code can raise. -/
inductive PyError
  | typeError
  | attributeError
  | unboundLocalError
  | valueError
  deriving DecidableEq, Repr

/-! ## Kappa (`gon.py`, class Kappa, lines 219–563) -/

/-- Names bound on a `Kappa` instance: the formatted components
(gon.py:292–302), class attributes (304–309), instance attributes set in
`__init__` (314–323), and the methods/properties of the class body
(326–563).  Inherited `ophyd`/`pcdsdevices` base-class attributes are not
listed; none of them defines `kap`, `kappa_postion`, `checkMotorStep` or
`E2K` either.  Note that `tab_whitelist` (gon.py:306) merely contains the
*string* 'kappa_postion'; it binds no attribute of that name. -/
def kappaAttrs : List String :=
  ["x", "y", "z", "eta", "kappa", "phi", "e_eta", "e_chi", "e_phi",
   "tab_component_names", "tab_whitelist",
   "_prefix_x", "_prefix_y", "_prefix_z",
   "_prefix_eta", "_prefix_kappa", "_prefix_phi",
   "eta_max_step", "kappa_max_step", "phi_max_step", "kappa_ang",
   "stop", "wait",
   "eta_position", "kappa_position", "phi_position",
   "e_eta_coord", "e_chi_coord", "e_phi_coord",
   "k_to_e", "e_to_k", "mv_e_eta", "mv_e_chi", "mv_e_phi",
   "check_motor_step"]

/-- Whether `getattr(self, name)` succeeds on a `Kappa` instance. -/
def kappaHasAttr (name : String) : Bool := kappaAttrs.contains name

/-- The state a `Kappa` method can read: the three live axis positions
(`self.eta.wm()` etc.) and the configuration set in `__init__`
(gon.py:311–323). -/
structure KappaState where
  etaPos : ℝ
  kappaPos : ℝ
  phiPos : ℝ
  kappaAng : ℝ
  etaMaxStep : ℝ
  kappaMaxStep : ℝ
  phiMaxStep : ℝ

/-- An attribute read that yields a number when the name exists and raises
`AttributeError` otherwise (`val` is the value the attribute would have). -/
def kappaGetNum (name : String) (val : ℝ) : Except PyError ℝ :=
  if kappaHasAttr name then .ok val else .error .attributeError

/-- `Kappa.eta_position` (gon.py:338–341): `self.eta.wm()`. -/
def eta_position (st : KappaState) : Except PyError ℝ :=
  kappaGetNum "eta" st.etaPos

/-- `Kappa.kappa_position` (gon.py:343–346): `self.kap.wm()` — the class
has no attribute `kap` (the component is `kappa`, gon.py:297), so this
property raises `AttributeError`. -/
def kappa_position (st : KappaState) : Except PyError ℝ :=
  kappaGetNum "kap" st.kappaPos

/-- `Kappa.phi_position` (gon.py:348–351): `self.phi.wm()`. -/
def phi_position (st : KappaState) : Except PyError ℝ :=
  kappaGetNum "phi" st.phiPos

/-- The arithmetic of `Kappa.k_to_e` (gon.py:398–409), a function of the
resolved angles, degrees in / degrees out.  `kap` names the kappa angle
actually used in the NumPy expressions (gon.py:400, 402). -/
noncomputable def k_to_e_core (kappaAng eta kap phi : ℝ) : ℝ × ℝ × ℝ :=
  let kappa_ang := kappaAng * π / 180
  let delta := arctan (tan (kap * π / 180 / 2.0) * cos kappa_ang)
  let e_eta := -eta * π / 180 - delta
  let e_chi := 2.0 * arcsin (sin (kap * π / 180 / 2.0) * sin kappa_ang)
  let e_phi := phi * π / 180 - delta
  (e_eta * 180 / π, e_chi * 180 / π, e_phi * 180 / π)

/-- The arithmetic of `Kappa.e_to_k` (gon.py:435–447), a function of the
resolved angles, degrees in / degrees out.  Note the sign flip
`k_phi = -k_phi * 180 / np.pi` on the third output (gon.py:446). -/
noncomputable def e_to_k_core (kappaAng e_eta e_chi e_phi : ℝ) : ℝ × ℝ × ℝ :=
  let kappa_ang := kappaAng * π / 180
  let delta := arcsin (-tan (e_chi * π / 180 / 2.0) / tan kappa_ang)
  let k_eta := -(e_eta * π / 180 - delta)
  let k_kap := 2.0 * arcsin (sin (e_chi * π / 180 / 2.0) / sin kappa_ang)
  let k_phi := e_phi * π / 180 - delta
  (k_eta * 180 / π, k_kap * 180 / π, -k_phi * 180 / π)

/-- `Kappa.k_to_e` (gon.py:371–409).  Argument resolution: a `None`
argument falls back to the live position (negated for `phi`,
gon.py:395–396).  The kappa branch (gon.py:393–394) assigns the local
`kap` only when `kappa` is `None` — and there via `self.kappa_position`,
which itself raises (`self.kap`).  When `kappa` is a number the branch is
skipped and the later read of `kap` (gon.py:400) raises
`UnboundLocalError`.  (A `kappa` argument of exactly `0` also skips the
branch: `not kappa` is true but `kappa != 0` is false.) -/
noncomputable def k_to_e (st : KappaState) (eta kappa phi : Option ℝ) :
    Except PyError (ℝ × ℝ × ℝ) := do
  let etaV : ℝ ← match eta with
    | none => eta_position st
    | some v => pure v
  let kapV : ℝ ← match kappa with
    | none => kappa_position st
    | some _ => Except.error PyError.unboundLocalError
  let phiV : ℝ ← match phi with
    | none => do pure (-(← phi_position st))
    | some v => pure v
  pure (k_to_e_core st.kappaAng etaV kapV phiV)

/-- `Kappa.e_eta_coord` (gon.py:353–357): first component of a live
`k_to_e()`. -/
noncomputable def e_eta_coord (st : KappaState) : Except PyError ℝ := do
  let (e_eta, _, _) ← k_to_e st none none none
  pure e_eta

/-- `Kappa.e_chi_coord` (gon.py:359–363). -/
noncomputable def e_chi_coord (st : KappaState) : Except PyError ℝ := do
  let (_, e_chi, _) ← k_to_e st none none none
  pure e_chi

/-- `Kappa.e_phi_coord` (gon.py:365–369). -/
noncomputable def e_phi_coord (st : KappaState) : Except PyError ℝ := do
  let (_, _, e_phi) ← k_to_e st none none none
  pure e_phi

/-- `Kappa.e_to_k` (gon.py:411–447).  A `None` argument falls back to the
live spherical coordinate (gon.py:428–433); the body itself is the
arithmetic of `e_to_k_core` and raises nothing. -/
noncomputable def e_to_k (st : KappaState) (e_eta e_chi e_phi : Option ℝ) :
    Except PyError (ℝ × ℝ × ℝ) := do
  let eEta : ℝ ← match e_eta with
    | none => e_eta_coord st
    | some v => pure v
  let eChi : ℝ ← match e_chi with
    | none => e_chi_coord st
    | some v => pure v
  let ePhi : ℝ ← match e_phi with
    | none => e_phi_coord st
    | some v => pure v
  pure (e_to_k_core st.kappaAng eEta eChi ePhi)

/-- The keyword names accepted by `Kappa.e_to_k` (gon.py:411):
`e_eta`, `e_chi`, `e_phi`. -/
def eToKKeywords : List String := ["e_eta", "e_chi", "e_phi"]

/-- A Python keyword call `self.e_to_k(**kwargs)`: any keyword outside the
signature raises `TypeError` before the body runs. -/
noncomputable def callEToK (st : KappaState) (kwargs : List (String × ℝ)) :
    Except PyError (ℝ × ℝ × ℝ) :=
  if kwargs.all (fun p => eToKKeywords.contains p.1) then
    e_to_k st ((kwargs.lookup "e_eta"))
      ((kwargs.lookup "e_chi")) ((kwargs.lookup "e_phi"))
  else
    .error .typeError

/-- `Kappa.check_motor_step` (gon.py:513–562).  `conf` is the operator's
reply to `input('  (y/n) ')`.  Line 536 reads `self.eta_position`
(defined), line 537 reads `self.kappa_postion` — a name the class does not
define (the property is `kappa_position`, gon.py:343) — so every call
raises `AttributeError` there. -/
noncomputable def check_motor_step (st : KappaState) (conf : String)
    (eta kappa phi : ℝ) : Except PyError Bool := do
  let etaPos ← eta_position st
  let eta_step := |eta - etaPos|
  let kappaPos ← kappaGetNum "kappa_postion" st.kappaPos
  let kappa_step := |kappa - kappaPos|
  let phiPos ← phi_position st
  let phi_step := |phi - phiPos|
  let is_eta_above_max := decide (eta_step > st.etaMaxStep)
  let is_kappa_above_max := decide (kappa_step > st.kappaMaxStep)
  let is_phi_above_max := decide (phi_step > st.phiMaxStep)
  if is_eta_above_max || is_kappa_above_max || is_phi_above_max then
    pure (conf == "y")
  else
    pure true

/-- Observable effects of a `mv_e_*` call: the keyword call handed to the
coordinate conversion, and each axis motor command `self.<axis>.mv(v)`. -/
inductive KappaEvent
  | convCall (kwargs : List (String × ℝ))
  | motorCmd (axis : String) (target : ℝ)

/-- `Kappa.mv_e_eta` (gon.py:449–468).  The body calls
`self.e_to_k(eta=value)`; `eta` is not a keyword of `e_to_k`, so the call
raises `TypeError`.  The surrounding `try` catches only
`KeyboardInterrupt` (gon.py:466), so the error propagates and no motor is
commanded. -/
noncomputable def mv_e_eta (st : KappaState) (conf : String) (value : ℝ) :
    Except PyError Unit × List KappaEvent :=
  match callEToK st [("eta", value)] with
  | .error e => (.error e, [.convCall [("eta", value)]])
  | .ok (kEta, kKap, kPhi) =>
    match check_motor_step st conf kEta kKap kPhi with
    | .error e => (.error e, [.convCall [("eta", value)]])
    | .ok true =>
        (.ok (), [.convCall [("eta", value)], .motorCmd "eta" kEta,
                  .motorCmd "kappa" kKap, .motorCmd "phi" kPhi])
    | .ok false => (.ok (), [.convCall [("eta", value)]])

/-- `Kappa.mv_e_chi` (gon.py:470–491).  A requested value of exactly `0`
is replaced by `10e-9` (gon.py:480–481) before anything else.  The body
then calls `self.e_to_k(chi=value)` — `chi` is not a keyword of `e_to_k`,
so the call raises `TypeError`.  (Were it to succeed, the next line calls
`self.checkMotorStep`, a name the class does not define.) -/
noncomputable def mv_e_chi (st : KappaState) (conf : String) (value : ℝ) :
    Except PyError Unit × List KappaEvent :=
  let value := if value = 0 then 10e-9 else value
  match callEToK st [("chi", value)] with
  | .error e => (.error e, [.convCall [("chi", value)]])
  | .ok (kEta, kKap, kPhi) =>
    if kappaHasAttr "checkMotorStep" then
      match check_motor_step st conf kEta kKap kPhi with
      | .error e => (.error e, [.convCall [("chi", value)]])
      | .ok true =>
          (.ok (), [.convCall [("chi", value)], .motorCmd "eta" kEta,
                    .motorCmd "kappa" kKap, .motorCmd "phi" kPhi])
      | .ok false => (.ok (), [.convCall [("chi", value)]])
    else
      (.error .attributeError, [.convCall [("chi", value)]])

/-- `Kappa.mv_e_phi` (gon.py:493–511).  The body calls
`self.E2K(phi=value)`; the class defines no attribute `E2K` (the
conversion method is `e_to_k`), so the lookup raises `AttributeError`
before any conversion or motor command. -/
noncomputable def mv_e_phi (st : KappaState) (conf : String) (value : ℝ) :
    Except PyError Unit × List KappaEvent :=
  if kappaHasAttr "E2K" then
    match callEToK st [("phi", value)] with
    | .error e => (.error e, [.convCall [("phi", value)]])
    | .ok (kEta, kKap, kPhi) =>
      match check_motor_step st conf kEta kKap kPhi with
      | .error e => (.error e, [.convCall [("phi", value)]])
      | .ok true =>
          (.ok (), [.convCall [("phi", value)], .motorCmd "eta" kEta,
                    .motorCmd "kappa" kKap, .motorCmd "phi" kPhi])
      | .ok false => (.ok (), [.convCall [("phi", value)]])
  else
    (.error .attributeError, [])

/-- A `Kappa` built with the constructor defaults (gon.py:311–313):
`eta_max_step=2, kappa_max_step=2, phi_max_step=2, kappa_ang=50`, all
axes at 0. -/
noncomputable def kappaDefault : KappaState :=
  { etaPos := 0, kappaPos := 0, phiPos := 0, kappaAng := 50,
    etaMaxStep := 2, kappaMaxStep := 2, phiMaxStep := 2 }

/-! ## AggregateSignal (`signal.py`, lines 115–203)

The cache maps sub-signals to values; a Python `dict` assignment
`self._cache[signal] = value` overwrites in place or appends, modelled on
an association list.  Values and signal identities are generic with
decidable equality (the source compares values with `!=`,
signal.py:201). -/

/-- `d[k] = v` on a Python dict viewed as an insertion-ordered
association list. -/
def dictInsert {σ V : Type} [DecidableEq σ] :
    List (σ × V) → σ → V → List (σ × V)
  | [], k, v => [(k, v)]
  | (k', v') :: rest, k, v =>
      if k' = k then (k, v) :: rest else (k', v') :: dictInsert rest k v

/-- `d[k]` lookup (`None`-free: callers below only read keys they wrote). -/
def dictGet {σ V : Type} [DecidableEq σ] (d : List (σ × V)) (k : σ) :
    Option V :=
  (d.find? (fun p => p.1 = k)).map Prod.snd

/-- State of an `AggregateSignal` (signal.py:133–138 plus the `_readback`
and subscriber bookkeeping of the `ophyd.Signal` base):

* `cache` — `self._cache`;
* `readback` — `self._readback`, the last computed value;
* `hasSubscribed` — `self._has_subscribed`; set to `False` in `__init__`
  and never assigned anywhere else in the class;
* `subSignals` — `self._sub_signals`;
* `handlers` — one entry per `signal.subscribe(self._run_sub_value, ...)`
  call made so far (`ophyd` registers the callback again on each call);
* `observers` — the callback ids registered on this signal by
  `super().subscribe(cb, ...)`. -/
structure AggState (σ V : Type) where
  cache : List (σ × V)
  readback : V
  hasSubscribed : Bool
  subSignals : List σ
  handlers : List σ
  observers : List ℕ

/-- Effects of `AggregateSignal.subscribe` beyond its own state: attaching
the per-channel handler to a source signal, and the warm-up `self.get()`
(signal.py:186–188). -/
inductive AggAction (σ : Type)
  | attach (s : σ)
  | warmGet

/-- `AggregateSignal.get` (signal.py:165–171): re-read every sub-signal
into the cache (`live` gives each signal's current value), then
`_update_state` recomputes `_readback` via the subclass-supplied
`_calc_readback` (`calcRb`). -/
def aggGet {σ V : Type} [DecidableEq σ] (calcRb : List (σ × V) → V)
    (live : σ → V) (st : AggState σ V) : AggState σ V :=
  let cache := st.subSignals.foldl (fun c s => dictInsert c s (live s)) st.cache
  { st with cache := cache, readback := calcRb cache }

/-- `AggregateSignal.subscribe` (signal.py:176–189).  `isValueEvent` is
`event_type in (None, self.SUB_VALUE)`.  `super().subscribe(cb, ...)`
registers the observer unconditionally; then, because `_has_subscribed`
is never set to `True`, the guard at signal.py:184 passes on *every*
value-change subscription, re-attaching `_run_sub_value` to each
sub-signal and re-running the warm-up `get()`. -/
def aggSubscribe {σ V : Type} [DecidableEq σ] (calcRb : List (σ × V) → V)
    (live : σ → V) (st : AggState σ V) (cb : ℕ) (isValueEvent : Bool) :
    AggState σ V × List (AggAction σ) :=
  let st := { st with observers := st.observers ++ [cb] }
  if isValueEvent && !st.hasSubscribed then
    let st := { st with handlers := st.handlers ++ st.subSignals }
    (aggGet calcRb live st,
     st.subSignals.map AggAction.attach ++ [AggAction.warmGet])
  else
    (st, [])

/-- `AggregateSignal._insert_value` (signal.py:153–158): update one cache
slot, recompute `_readback`, return it. -/
def insert_value {σ V : Type} [DecidableEq σ] (calcRb : List (σ × V) → V)
    (st : AggState σ V) (sig : σ) (value : V) : AggState σ V × V :=
  let cache := dictInsert st.cache sig value
  let readback := calcRb cache
  ({ st with cache := cache, readback := readback }, readback)

/-- `AggregateSignal._run_sub_value` (signal.py:191–203).  Records the
old `_readback`, updates the one slot via `_insert_value`, and runs all
registered observers with `(value, old_value)` unless the new value
equals the old one while `_update_only_on_change` (`uooc`; `True` at
signal.py:131) is set.  Returns the new state and the list of observer
invocations `(callback id, new value, old value)`. -/
def run_sub_value {σ V : Type} [DecidableEq σ] [DecidableEq V]
    (calcRb : List (σ × V) → V) (uooc : Bool) (st : AggState σ V)
    (sig : σ) (value : V) : AggState σ V × List (ℕ × V × V) :=
  let old_value := st.readback
  let (st', value') := insert_value calcRb st sig value
  if value' ≠ old_value || !uooc then
    (st', st'.observers.map (fun c => (c, value', old_value)))
  else
    (st', [])

/-! ## AvgSignal (`signal.py`, lines 206–272)

The buffer is `np.empty(avg)` filled with NaN; NaN marks a never-written
slot and `np.nanmean` excludes NaN entries.  Modelled as
`List (Option ℚ)` with `none` for NaN, over exact rationals. -/

/-- `np.nanmean(values)`: the mean of the non-NaN entries (`none` when
every entry is NaN, where NumPy warns and returns NaN). -/
def nanmean (values : List (Option ℚ)) : Option ℚ :=
  let xs := values.filterMap id
  if xs.isEmpty then none else some (xs.sum / xs.length)

/-- State of an `AvgSignal`: the circular buffer `self.values`, the write
cursor `self.index`, and the last value published through `self.put`
(`none` until the first update). -/
structure AvgState where
  values : List (Option ℚ)
  index : ℕ
  readback : Option ℚ
  deriving DecidableEq, Repr

/-- The `averages` setter (signal.py:255–264): reinitialize an empty
buffer of size `avg` (all NaN) and reset the cursor.  This is also how
`__init__` builds the initial state (signal.py:236). -/
def setAverages (avg : ℕ) : AvgState :=
  { values := List.replicate avg none, index := 0, readback := none }

/-- `AvgSignal._update_avg` (signal.py:266–272): write the sample at the
cursor, advance the cursor modulo `len(self.values)`, publish
`np.nanmean(self.values)`. -/
def update_avg (st : AvgState) (value : ℚ) : AvgState :=
  let values := st.values.set st.index (some value)
  { values := values,
    index := (st.index + 1) % values.length,
    readback := nanmean values }

/-- A sequence of `SUB_VALUE` updates delivered to `_update_avg`. -/
def avgFeed (st : AvgState) (samples : List ℚ) : AvgState :=
  samples.foldl update_avg st

/-! ## UnitConversionDerivedSignal (`signal.py`, lines 301–414)

`convert_unit` lives in `pcdsdevices.utils` (outside these two files); it
is the external conversion primitive, passed in as a parameter.  Units are
a generic type (strings in the source). -/

/-- The relevant state: units fixed at construction and the mutable
`user_offset` (signal.py:352–359). -/
structure UnitConversionState (U : Type) where
  derived_units : U
  original_units : U
  user_offset : Option ℝ

/-- `UnitConversionDerivedSignal.forward` (signal.py:362–367):
`convert_unit(value - offset, derived_units, original_units)`, raising
`ValueError` when the offset is `None`. -/
def forward {U : Type} (convert : ℝ → U → U → ℝ)
    (s : UnitConversionState U) (value : ℝ) : Except PyError ℝ :=
  match s.user_offset with
  | none => .error .valueError
  | some off => .ok (convert (value - off) s.derived_units s.original_units)

/-- `UnitConversionDerivedSignal.inverse` (signal.py:369–374):
`convert_unit(value, original_units, derived_units) + offset`. -/
def inverse {U : Type} (convert : ℝ → U → U → ℝ)
    (s : UnitConversionState U) (value : ℝ) : Except PyError ℝ :=
  match s.user_offset with
  | none => .error .valueError
  | some off => .ok (convert value s.original_units s.derived_units + off)

/-! ## Concrete instances used by the claim checks -/

/-- The samples a capacity-`N` circular buffer retains after absorbing
`xs`: the last `min xs.length N` of them. -/
def lastWindow (N : ℕ) (xs : List ℚ) : List ℚ := xs.drop (xs.length - N)

/-- A `Kappa` whose `kappa_ang` is 180, a multiple of 180° (the degenerate
configuration of claim C5). -/
noncomputable def kappa180 : KappaState :=
  { kappaDefault with kappaAng := 180 }

/-- A concrete `_calc_readback`: sum of the cached values. -/
def aggSum : List (ℕ × ℤ) → ℤ := fun cache => (cache.map Prod.snd).sum

/-- Concrete live values for the sub-signals (each reads 0). -/
def aggLive : ℕ → ℤ := fun _ => 0

/-- A freshly constructed `AggregateSignal` with one sub-signal
(signal.py:133–138: empty cache, `_has_subscribed = False`). -/
def aggInit : AggState ℕ ℤ :=
  { cache := [], readback := 0, hasSubscribed := false,
    subSignals := [0], handlers := [], observers := [] }

/-- A conversion primitive that returns its input unchanged (trivially
round-tripping between any unit pair). -/
def convSame : ℝ → String → String → ℝ := fun x _ _ => x

/-- A `UnitConversionDerivedSignal` with offset 5 between units mm/m. -/
def ucdsSample : UnitConversionState String :=
  { derived_units := "mm", original_units := "m", user_offset := some 5 }

/-! ## Helper lemmas for the rolling-average buffer -/

lemma avgFeed_append (st : AvgState) (ys : List ℚ) (y : ℚ) :
    avgFeed st (ys ++ [y]) = update_avg (avgFeed st ys) y := by
  simp [avgFeed]

/-- The buffer layout after feeding `xs` into a fresh capacity-`N`
`AvgSignal`: a rotation of the last `min xs.length N` samples, padded with
never-written (`none`) slots, the cursor at `xs.length % N`. -/
lemma avgFeed_values (N : ℕ) (hN : 0 < N) (xs : List ℚ) :
    (avgFeed (setAverages N) xs).values =
      ((lastWindow N xs).drop (min xs.length N - xs.length % N) ++
       (lastWindow N xs).take (min xs.length N - xs.length % N)).map some ++
      List.replicate (N - xs.length) none ∧
    (avgFeed (setAverages N) xs).index = xs.length % N := by
  induction xs using List.reverseRecOn with
  | nil =>
    simp [avgFeed, setAverages, lastWindow]
  | append_singleton ys y ih =>
    obtain ⟨ihv, ihi⟩ := ih
    set m := ys.length with hm
    have hWlen : (lastWindow N ys).length = min m N := by
      simp [lastWindow]; omega
    have hvlen : (avgFeed (setAverages N) ys).values.length = N := by
      rw [ihv]
      simp
      omega
    rw [avgFeed_append]
    simp only [update_avg, List.length_set]
    rw [hvlen, ihv, ihi]
    by_cases hmN : m < N
    · -- buffer not yet full
      have hr : m % N = m := Nat.mod_eq_of_lt hmN
      have hW : lastWindow N ys = ys := by
        unfold lastWindow
        rw [Nat.sub_eq_zero_of_le hmN.le, List.drop_zero]
      rw [hW, hr]
      have hminm : min m N = m := by omega
      rw [hminm]
      simp only [Nat.sub_self, List.drop_zero, List.take_zero, List.append_nil]
      have hset : ((ys.map some) ++ List.replicate (N - m) none).set m (some y) =
          (ys ++ [y]).map some ++ List.replicate (N - (m + 1)) none := by
        rw [List.set_append_right]
        · have : N - m = (N - (m + 1)) + 1 := by omega
          rw [List.length_map, ← hm, Nat.sub_self, this, List.replicate_succ]
          simp
        · simp [← hm]
      rw [hset]
      constructor
      · have hlen1 : (ys ++ [y]).length = m + 1 := by simp [← hm]
        have hW' : lastWindow N (ys ++ [y]) = ys ++ [y] := by
          unfold lastWindow
          rw [hlen1, Nat.sub_eq_zero_of_le (by omega), List.drop_zero]
        rw [hW', hlen1]
        by_cases hm1 : m + 1 < N
        · rw [Nat.mod_eq_of_lt hm1]
          simp
        · -- m + 1 = N
          have hEq : m + 1 = N := by omega
          rw [hEq, Nat.mod_self]
          have : (ys ++ [y]).length = N := by rw [hlen1, hEq]
          rw [Nat.sub_zero, min_self, List.drop_eq_nil_of_le (by omega),
            List.take_of_length_le (by omega)]
          simp
      · simp [← hm]
    · -- buffer full : N ≤ m
      have hNm : N ≤ m := not_lt.mp hmN
      set r := m % N with hrdef
      have hr : r < N := Nat.mod_lt _ hN
      have hmin : min m N = N := by omega
      rw [hmin] at ihv ⊢
      have hrepl : N - m = 0 := by omega
      rw [hrepl] at ihv ⊢
      set W := lastWindow N ys with hWdef
      have hWN : W.length = N := by rw [hWdef, hWlen]; omega
      obtain ⟨w, ws, hWcons⟩ : ∃ w ws, W = w :: ws := by
        cases hWc : W with
        | nil => rw [hWc] at hWN; simp at hWN; omega
        | cons a l => exact ⟨a, l, rfl⟩
      have hws : ws.length = N - 1 := by
        have := hWN
        rw [hWcons] at this
        simp at this
        omega
      have hdroplen : ((W.drop (N - r)).map some).length = r := by
        simp [hWN]
        omega
      have hset :
          ((W.drop (N - r) ++ W.take (N - r)).map some ++
            List.replicate 0 none).set r (some y) =
          (W.drop (N - r)).map some ++
            ((W.take (N - r)).map some).set 0 (some y) := by
        simp only [List.replicate_zero, List.append_nil, List.map_append]
        rw [List.set_append_right]
        · rw [hdroplen, Nat.sub_self]
        · rw [hdroplen]
      rw [hset]
      have htake_cons : W.take (N - r) = w :: ws.take (N - r - 1) := by
        rw [hWcons]
        have : N - r = (N - r - 1) + 1 := by omega
        rw [this]
        simp
      have hdrop_cons : W.drop (N - r) = ws.drop (N - r - 1) := by
        rw [hWcons]
        have : N - r = (N - r - 1) + 1 := by omega
        rw [this]
        simp
      have hW' : lastWindow N (ys ++ [y]) = ws ++ [y] := by
        unfold lastWindow
        have hlen1 : (ys ++ [y]).length = m + 1 := by simp [← hm]
        rw [hlen1, List.drop_append_of_le_length (by omega)]
        have : ys.drop (m + 1 - N) = W.drop 1 := by
          rw [hWdef]
          unfold lastWindow
          rw [List.drop_drop]
          congr 1
          omega
        rw [this, hWcons]
        simp
      have hlen1 : (ys ++ [y]).length = m + 1 := by simp [← hm]
      have hmod : (m + 1) % N = (r + 1) % N := by
        conv_lhs => rw [← Nat.mod_add_div m N]
        rw [Nat.add_right_comm, Nat.add_mul_mod_self_left]
      by_cases hr1 : r + 1 < N
      · have hr' : (m + 1) % N = r + 1 := by rw [hmod, Nat.mod_eq_of_lt hr1]
        rw [htake_cons, hW', hlen1, hr']
        have hmin' : min (m + 1) N = N := by omega
        rw [hmin']
        constructor
        · have hds : (ws ++ [y]).drop (N - (r + 1)) =
              ws.drop (N - r - 1) ++ [y] := by
            rw [List.drop_append_of_le_length (by omega), Nat.sub_sub]
          have hts : (ws ++ [y]).take (N - (r + 1)) = ws.take (N - r - 1) := by
            rw [List.take_append_of_le_length (by omega), Nat.sub_sub]
          rw [hds, hts, hdrop_cons]
          have hrepl' : N - (m + 1) = 0 := by omega
          rw [hrepl']
          simp
        · exact Nat.mod_eq_of_lt hr1
      · -- r + 1 = N : wrap-around
        have hrN : r + 1 = N := by omega
        have hr' : (m + 1) % N = 0 := by rw [hmod, hrN, Nat.mod_self]
        rw [htake_cons, hW', hlen1, hr']
        have hmin' : min (m + 1) N = N := by omega
        rw [hmin']
        constructor
        · have h1 : N - r = 1 := by omega
          rw [hdrop_cons, h1]
          simp only [Nat.sub_self, Nat.sub_zero, List.take_zero, List.map_nil]
          have hwsy : (ws ++ [y]).length = N := by simp [hws]; omega
          rw [List.drop_eq_nil_of_le (le_of_eq hwsy),
            List.take_of_length_le (le_of_eq hwsy)]
          have hrepl' : N - (m + 1) = 0 := by omega
          rw [hrepl']
          simp
        · rw [hrN]
          exact Nat.mod_self N

lemma avgFeed_readback (st : AvgState) (xs : List ℚ) (h : xs ≠ []) :
    (avgFeed st xs).readback = nanmean (avgFeed st xs).values := by
  induction xs using List.reverseRecOn with
  | nil => simp at h
  | append_singleton ys y _ => rw [avgFeed_append]; rfl

lemma filterMap_id_map_some (l : List ℚ) :
    (l.map some).filterMap id = l := by
  induction l with
  | nil => rfl
  | cons a l ih => simp [ih]

lemma filterMap_id_replicate_none (k : ℕ) :
    ((List.replicate k (none : Option ℚ)).filterMap id) = [] := by
  induction k with
  | zero => rfl
  | succ n ih => simp [List.replicate_succ, ih]

/-! ## Claim theorems -/

/-- Claim C1, counterexample.  The round-trip
`e_to_k(k_to_e(eta, kappa, phi))` cannot equal `(eta, kappa, phi)` within
any tolerance at `(0, 10, 0)` with the default `kappa_ang = 50`: passing
`kappa` explicitly makes `k_to_e` raise `UnboundLocalError` (the branch at
gon.py:393–394 assigns the local `kap` only when `kappa` is `None`, yet
gon.py:400 reads `kap`), so the inner call produces no coordinates at
all. -/
theorem k_to_e_explicit_kappa_raises :
    k_to_e kappaDefault (some 0) (some 10) (some 0) =
      Except.error PyError.unboundLocalError := rfl

/-- Claim C1, amended.  The transform arithmetic itself (gon.py:398–409
composed with gon.py:435–447, the code that runs when `kappa` is drawn
from the live axis) round-trips `eta` and `kappa` exactly and returns
`phi` *negated* — `e_to_k_core(k_to_e_core(eta, kappa, phi)) =
(eta, kappa, -phi)` — for any `kappa_angle` that is a multiple of neither
180° nor 90° (`sin ≠ 0`, `cos ≠ 0`) and any `kappa` strictly between
±180°.  The negation comes from `k_phi = -k_phi * 180/np.pi`
(gon.py:446), which inverts the `phi = -self.phi_position` convention of
the live read (gon.py:396): only the live-value composition, not the
function composition, restores `phi`. -/
theorem core_transform_roundtrip (kappaAng eta kap phi : ℝ)
    (hsin : Real.sin (kappaAng * π / 180) ≠ 0)
    (hcos : Real.cos (kappaAng * π / 180) ≠ 0)
    (hk1 : -180 < kap) (hk2 : kap < 180) :
    e_to_k_core kappaAng (k_to_e_core kappaAng eta kap phi).1
      (k_to_e_core kappaAng eta kap phi).2.1
      (k_to_e_core kappaAng eta kap phi).2.2 = (eta, kap, -phi) := by
  have hπ : (π : ℝ) ≠ 0 := Real.pi_ne_zero
  have hπpos : (0:ℝ) < π := Real.pi_pos
  set a := kappaAng * π / 180 with ha
  set x := kap * π / 180 / 2.0 with hx
  have hx2 : x < π/2 := by rw [hx]; norm_num; nlinarith
  have hx1 : -(π/2) < x := by rw [hx]; norm_num; nlinarith
  have hcosx : 0 < Real.cos x := Real.cos_pos_of_mem_Ioo ⟨hx1, hx2⟩
  set s := Real.sin x * Real.sin a with hs
  have hsx1 : Real.sin x ^ 2 ≤ 1 := Real.sin_sq_le_one x
  have hsa1 : Real.sin a ^ 2 ≤ 1 := Real.sin_sq_le_one a
  have hs_ge : -1 ≤ s := by
    rw [hs]; nlinarith [sq_nonneg (Real.sin x + Real.sin a)]
  have hs_le : s ≤ 1 := by
    rw [hs]; nlinarith [sq_nonneg (Real.sin x - Real.sin a)]
  have px : Real.sin x ^ 2 + Real.cos x ^ 2 = 1 := Real.sin_sq_add_cos_sq x
  have pa : Real.sin a ^ 2 + Real.cos a ^ 2 = 1 := Real.sin_sq_add_cos_sq a
  have hs_lt : s ^ 2 < 1 := by
    rw [hs]
    nlinarith [sq_nonneg (Real.sin a), sq_nonneg (Real.cos x),
      mul_pos hcosx hcosx]
  have h1s : (0:ℝ) < 1 - s ^ 2 := by nlinarith
  have hsqrt_pos : 0 < Real.sqrt (1 - s ^ 2) := Real.sqrt_pos.mpr h1s
  set t := Real.tan x * Real.cos a with ht
  have e1 : 1 + t ^ 2 = (1 - s ^ 2) / Real.cos x ^ 2 := by
    rw [ht, hs, Real.tan_eq_sin_div_cos]
    field_simp
    nlinarith [px, pa, sq_nonneg (Real.sin x), sq_nonneg (Real.cos a)]
  have hsqrt_eq : Real.sqrt (1 + t ^ 2) = Real.sqrt (1 - s ^ 2) / Real.cos x := by
    rw [e1, Real.sqrt_div h1s.le, Real.sqrt_sq hcosx.le]
  have htan_arc : Real.tan (Real.arcsin s) = s / Real.sqrt (1 - s ^ 2) :=
    Real.tan_arcsin s
  have hta : Real.tan a ≠ 0 := by
    rw [Real.tan_eq_sin_div_cos]
    exact div_ne_zero hsin hcos
  have harg : -Real.tan (Real.arcsin s) / Real.tan a =
      -(t / Real.sqrt (1 + t ^ 2)) := by
    rw [htan_arc, hsqrt_eq, ht, Real.tan_eq_sin_div_cos x,
      Real.tan_eq_sin_div_cos a, hs]
    field_simp
    ring
  have hdelta : Real.arcsin (-Real.tan (Real.arcsin s) / Real.tan a) =
      -Real.arctan t := by
    rw [harg, Real.arcsin_neg, ← Real.arctan_eq_arcsin]
  simp only [k_to_e_core, e_to_k_core, ← ha, ← hx, ← hs, ← ht, Prod.mk.injEq]
  have hchi_half : 2.0 * Real.arcsin s * 180 / π * π / 180 / 2.0 =
      Real.arcsin s := by
    field_simp
  refine ⟨?_, ?_, ?_⟩
  · rw [hchi_half, hdelta]
    field_simp
  · rw [hchi_half, Real.sin_arcsin hs_ge hs_le, hs,
      mul_div_cancel_right₀ _ hsin, Real.arcsin_sin hx1.le hx2.le, hx]
    field_simp
    ring
  · rw [hchi_half, hdelta]
    field_simp
    ring

/-- Claim C1, witness for the amended statement: at the default
`kappa_ang = 50` with `(eta, kappa, phi) = (0, 0, 90)` the hypotheses
hold and the core composition returns `(0, 0, -90)` — `phi` comes back
negated. -/
theorem core_transform_roundtrip_witness :
    Real.sin (50 * π / 180) ≠ 0 ∧ Real.cos (50 * π / 180) ≠ 0 ∧
    ((-180:ℝ) < 0 ∧ (0:ℝ) < 180) ∧
    e_to_k_core 50 (k_to_e_core 50 0 0 90).1 (k_to_e_core 50 0 0 90).2.1
      (k_to_e_core 50 0 0 90).2.2 = (0, 0, -90) := by
  have hlt : 50 * π / 180 < π / 2 := by nlinarith [Real.pi_pos]
  have hpos : 0 < 50 * π / 180 := by positivity
  have h1 : Real.sin (50 * π / 180) ≠ 0 :=
    (Real.sin_pos_of_pos_of_lt_pi hpos (by nlinarith [Real.pi_pos])).ne'
  have h2 : Real.cos (50 * π / 180) ≠ 0 :=
    (Real.cos_pos_of_mem_Ioo ⟨by nlinarith [Real.pi_pos], hlt⟩).ne'
  exact ⟨h1, h2, ⟨by norm_num, by norm_num⟩,
    core_transform_roundtrip 50 0 0 90 h1 h2 (by norm_num) (by norm_num)⟩

/-- Claim C2 (code bug).  No `mv_e_*` request ever reaches a motor: for
every state, confirmation answer and value, `mv_e_eta` raises `TypeError`
(`self.e_to_k(eta=value)`, gon.py:459 — `e_to_k` has no keyword `eta`),
`mv_e_chi` raises `TypeError` (`self.e_to_k(chi=value)`, gon.py:482), and
`mv_e_phi` raises `AttributeError` (`self.E2K(phi=value)`, gon.py:503 —
no attribute `E2K`); in each case the event trace contains no
`motorCmd`, so no axis is ever commanded, rather than all three being
commanded together as the claim states. -/
theorem mv_commands_no_motor (st : KappaState) (conf : String) (v : ℝ) :
    ((mv_e_eta st conf v).1 = .error .typeError ∧
      (mv_e_eta st conf v).2 = [.convCall [("eta", v)]]) ∧
    ((mv_e_chi st conf v).1 = .error .typeError ∧
      (mv_e_chi st conf v).2 =
        [.convCall [("chi", if v = 0 then 10e-9 else v)]]) ∧
    (mv_e_phi st conf v = (.error .attributeError, [])) := by
  refine ⟨⟨rfl, rfl⟩, ⟨?_, ?_⟩, rfl⟩ <;> rfl

/-- Claim C3 (code bug).  `check_motor_step` never compares the deltas
against the thresholds: for every state, answer and destination triple it
raises `AttributeError` at gon.py:537, which reads `self.kappa_postion` —
a misspelling of the `kappa_position` property (gon.py:343) that the
class does not define — so it returns neither `True` for in-threshold
requests nor anything else. -/
theorem check_motor_step_always_raises (st : KappaState) (conf : String)
    (eta kappa phi : ℝ) :
    check_motor_step st conf eta kappa phi =
      Except.error PyError.attributeError := rfl

/-- Claim C4 (code bug).  In a decline scenario — default thresholds of
2, axes at 0, requested `eta = 100`, operator answer `n` —
`check_motor_step` does not return `False`: it raises `AttributeError`
(the `kappa_postion` misspelling at gon.py:537) before the confirmation
prompt is ever shown; and the surrounding `mv_e_eta` call indeed
commands no axis motor (its trace holds only the failed conversion
call). -/
theorem check_motor_step_decline_raises :
    check_motor_step kappaDefault "n" 100 0 0 =
      Except.error PyError.attributeError ∧
    (mv_e_eta kappaDefault "n" 100).2 = [.convCall [("eta", 100)]] :=
  ⟨rfl, rfl⟩

/-- Claim C5, counterexample.  With `kappa_ang = 180` — a multiple of
180°, squarely inside the claim's precondition — `e_to_k` does *not*
fail with a domain error: it returns normally (NumPy's `arcsin` and
division produce NaN/inf with at most a warning; no exception is
raised). -/
theorem e_to_k_degenerate_angle_returns :
    kappa180.kappaAng = 180 ∧
    e_to_k kappa180 (some 1) (some 1) (some 1) =
      Except.ok (e_to_k_core 180 1 1 1) := ⟨rfl, rfl⟩

/-- Claim C5, amended.  `e_to_k` with all three spherical coordinates
given explicitly never raises, whatever the input and whatever
`kappa_ang`: out-of-domain `arcsin` arguments and the degenerate
`tan`/`sin` denominators propagate as silent NaN/inf values (total
functions in this embedding), not as exceptions; the caller receives a
normal return.  (No axis motion follows such a request only because every
`mv_e_*` raises earlier for unrelated reasons — see claim C2.) -/
theorem e_to_k_explicit_never_raises (st : KappaState) (eEta eChi ePhi : ℝ) :
    e_to_k st (some eEta) (some eChi) (some ePhi) =
      Except.ok (e_to_k_core st.kappaAng eEta eChi ePhi) := rfl

/-- Claim C6 (code bug).  `_has_subscribed` is initialized to `False`
(signal.py:136) and never set to `True`, so the guard at signal.py:184
passes on every value-change subscription, not only the first: after a
first `subscribe`, a second one again attaches the per-channel handler to
every source signal and re-runs the warm-up `get()` (second component
`[attach 0, warmGet]`, handler list `[0, 0]`), where the claim requires
it to do neither. -/
theorem aggregate_resubscribe_repeats :
    (aggSubscribe aggSum aggLive
        (aggSubscribe aggSum aggLive aggInit 10 true).1 11 true).2 =
      [AggAction.attach 0, AggAction.warmGet] ∧
    (aggSubscribe aggSum aggLive
        (aggSubscribe aggSum aggLive aggInit 10 true).1 11 true).1.handlers =
      [0, 0] := by
  constructor <;> rfl

/-- Claim C7 (confirmed).  With `_update_only_on_change` set (the class
default, signal.py:131), a channel-change notification always updates
that channel's cache slot and recomputes `_readback`; it invokes no
observer when the recomputed derived value equals the previous one, and
invokes every registered observer with `(new_value, old_value)` when it
differs (signal.py:191–203). -/
theorem run_sub_value_change_suppression {σ V : Type} [DecidableEq σ]
    [DecidableEq V] (calcRb : List (σ × V) → V) (st : AggState σ V)
    (sig : σ) (v : V) :
    dictGet (run_sub_value calcRb true st sig v).1.cache sig = some v ∧
    (run_sub_value calcRb true st sig v).1.readback =
      calcRb (dictInsert st.cache sig v) ∧
    (run_sub_value calcRb true st sig v).2 =
      (if calcRb (dictInsert st.cache sig v) = st.readback then []
       else st.observers.map
         (fun c => (c, calcRb (dictInsert st.cache sig v), st.readback))) := by
  have hget : ∀ (d : List (σ × V)) (k : σ) (w : V),
      dictGet (dictInsert d k w) k = some w := by
    intro d k w
    induction d with
    | nil => simp [dictInsert, dictGet]
    | cons p rest ih =>
      by_cases h : p.1 = k
      · simp [dictInsert, dictGet, h]
      · simp [dictInsert, dictGet, h, List.find?]
        simpa [dictGet] using ih
  by_cases h : calcRb (dictInsert st.cache sig v) = st.readback <;>
    simp [run_sub_value, insert_value, h, hget]

/-- Claim C8 (confirmed).  Feeding any `m ≥ 1` samples into a fresh
capacity-`N` buffer (`N ≥ 1`) publishes, when `m ≥ N`, the arithmetic
mean of exactly the last `N` samples, and, when `m < N`, the mean of the
`m` samples received so far — never-written slots are excluded from the
mean (`np.nanmean` skips the NaN fill), not counted as zero
(signal.py:255–272). -/
theorem avg_rolling_window_mean (N : ℕ) (xs : List ℚ) (hN : 1 ≤ N)
    (hxs : 1 ≤ xs.length) :
    (N ≤ xs.length → (avgFeed (setAverages N) xs).readback =
        some ((xs.drop (xs.length - N)).sum / (N : ℚ))) ∧
    (xs.length < N → (avgFeed (setAverages N) xs).readback =
        some (xs.sum / (xs.length : ℚ))) := by
  have hxsne : xs ≠ [] := by
    cases xs with
    | nil => simp at hxs
    | cons a l => simp
  obtain ⟨hv, -⟩ := avgFeed_values N hN xs
  have hrd := avgFeed_readback (setAverages N) xs hxsne
  rw [hv] at hrd
  set W := lastWindow N xs with hWdef
  set k := min xs.length N - xs.length % N with hk
  have hfm : (((W.drop k ++ W.take k).map some ++
      List.replicate (N - xs.length) none).filterMap id) =
      W.drop k ++ W.take k := by
    rw [List.filterMap_append, filterMap_id_map_some,
      filterMap_id_replicate_none, List.append_nil]
  have hWlen : W.length = min xs.length N := by
    rw [hWdef]; unfold lastWindow; rw [List.length_drop]; omega
  have hsum : (W.drop k ++ W.take k).sum = W.sum := by
    rw [List.sum_append, add_comm, ← List.sum_append, List.take_append_drop]
  have hlen : (W.drop k ++ W.take k).length = min xs.length N := by
    rw [List.length_append, List.length_drop, List.length_take, hWlen]
    omega
  have hlen_pos : 0 < min xs.length N := by omega
  have hne : ((W.drop k ++ W.take k).isEmpty) = false := by
    rcases hc : W.drop k ++ W.take k with - | ⟨a, l⟩
    · rw [hc] at hlen; simp at hlen; omega
    · rfl
  unfold nanmean at hrd
  rw [hfm] at hrd
  simp only [hne, Bool.false_eq_true, if_false, hsum, hlen] at hrd
  constructor
  · intro hNle
    have hmin : min xs.length N = N := by omega
    rw [hrd, hmin, hWdef]
    rfl
  · intro hlt
    have hmin : min xs.length N = xs.length := by omega
    have hWxs : W = xs := by
      rw [hWdef]; unfold lastWindow
      rw [Nat.sub_eq_zero_of_le hlt.le, List.drop_zero]
    rw [hrd, hmin, hWxs]

/-- Claim C8, witness: capacity 2, samples `[1, 2, 3]` — the published
value is the mean of the last two samples, `(2 + 3) / 2`. -/
theorem avg_rolling_window_mean_witness :
    1 ≤ 2 ∧ 1 ≤ ([1, 2, 3] : List ℚ).length ∧
    2 ≤ ([1, 2, 3] : List ℚ).length ∧
    (avgFeed (setAverages 2) [1, 2, 3]).readback =
      some ((([1, 2, 3] : List ℚ).drop (([1, 2, 3] : List ℚ).length - 2)).sum /
        (2 : ℚ)) :=
  ⟨by decide, by decide, by decide,
    (avg_rolling_window_mean 2 [1, 2, 3] (by decide) (by decide)).1 (by decide)⟩

/-- Claim C9 (confirmed).  For every non-`None` offset and every
conversion primitive that round-trips between the two configured units,
`inverse (forward x) = x` and `forward (inverse x) = x` exactly
(signal.py:362–374): the offset is subtracted before the outbound
conversion and added after the inbound one, so the two cancel. -/
theorem unit_conversion_roundtrip {U : Type} (convert : ℝ → U → U → ℝ)
    (s : UnitConversionState U) (off : ℝ) (hoff : s.user_offset = some off)
    (h1 : ∀ x, convert (convert x s.derived_units s.original_units)
        s.original_units s.derived_units = x)
    (h2 : ∀ x, convert (convert x s.original_units s.derived_units)
        s.derived_units s.original_units = x)
    (x : ℝ) :
    (forward convert s x).bind (inverse convert s) = .ok x ∧
    (inverse convert s x).bind (forward convert s) = .ok x := by
  unfold forward inverse
  rw [hoff]
  constructor
  · show Except.ok (convert (convert (x - off) s.derived_units s.original_units)
      s.original_units s.derived_units + off) = Except.ok x
    rw [h1, sub_add_cancel]
  · show Except.ok (convert
      (convert x s.original_units s.derived_units + off - off)
      s.derived_units s.original_units) = Except.ok x
    rw [add_sub_cancel_right, h2]

/-- Claim C9, witness: the identity conversion between mm and m with
offset 5 round-trips the value 3 in both directions. -/
theorem unit_conversion_roundtrip_witness :
    ucdsSample.user_offset = some 5 ∧
    (∀ x : ℝ, convSame (convSame x ucdsSample.derived_units
        ucdsSample.original_units) ucdsSample.original_units
        ucdsSample.derived_units = x) ∧
    (forward convSame ucdsSample 3).bind (inverse convSame ucdsSample) =
      .ok 3 ∧
    (inverse convSame ucdsSample 3).bind (forward convSame ucdsSample) =
      .ok 3 := by
  refine ⟨rfl, fun _ => rfl, ?_⟩
  exact unit_conversion_roundtrip convSame ucdsSample 5 rfl
    (fun _ => rfl) (fun _ => rfl) 3

/-- Claim C10 (confirmed).  For every state and confirmation answer,
`mv_e_chi 0` replaces the requested target of exactly zero by `10e-9`
before anything else happens (gon.py:480–481): the conversion call in its
trace carries `("chi", 10e-9)`, never zero, and no motor command — nor
any other use of the exact zero — appears. -/
theorem mv_e_chi_zero_replaced (st : KappaState) (conf : String) :
    mv_e_chi st conf 0 =
      (.error .typeError, [.convCall [("chi", 10e-9)]]) := by
  unfold mv_e_chi
  rw [if_pos rfl]
  rfl
